import Mathlib

/-!
Verification of the `load_dask` function defined in
`src/load_dask/load_dask.ipynb` (the only source file of the repository).

The Python function is pure glue over two external collaborators
(the dask cluster client and the mlrun context/artifact logger).  We give
it a shallow embedding: all mutable state the function can touch is
gathered into a `World` record, the external collaborator calls are
modelled as explicit state transformations on that record, and
`load_dask` itself is a pure function `World → arguments → World × Outcome`
that follows the Python body line by line.  A trace of collaborator
calls (`events`) is recorded so that "no publish call is made"-style
claims can be stated directly.
-/

/-- A distributed dataframe value, as this program can construct it.
`fromSource src inc idx` is the result of `src_data.as_df(df_module=dd)`
for source data `src` with the optional `inc_cols` / `index_cols` hints;
`persisted d` is the result of `dask_client.persist(d)`. -/
inductive Df where
  | fromSource (src : Nat) (inc_cols : Option (List String)) (index_cols : Option (List String))
  | persisted (d : Df)
deriving DecidableEq, Repr

/-- The execution context object (`MLClientCtx`).  The only attribute the
program reads or writes is `dask_client`; `none` models a context object
that has no `dask_client` attribute (so `hasattr(context, "dask_client")`
is false), `some c` a context carrying the client handle `c`. -/
structure MLClientCtx where
  dask_client : Option Nat
deriving DecidableEq, Repr

/-- A Python value returned by the function: `pynone` is Python `None`
(the function is annotated `-> None` and has no return statement);
`descriptor` would be a scheduler-descriptor document, were one returned. -/
inductive PyVal where
  | pynone
  | descriptor (d : Nat)
deriving DecidableEq, Repr

/-- Whether a returned Python value is a scheduler descriptor document. -/
def PyVal.isSchedulerDescriptor : PyVal → Bool
  | PyVal.pynone => false
  | PyVal.descriptor _ => true

/-- How one invocation terminates: normal return of a value, or a raised
exception with its message. -/
inductive Outcome where
  | ok (ret : PyVal)
  | raised (msg : String)
deriving DecidableEq, Repr

/-- One observable collaborator call made by the function body. -/
inductive Event where
  | asDfCall (src : Nat)
  | persistCall (d : Df)
  | unpublishCall (name : String)
  | publishCall (name : String) (d : Df)
  | writeSchedulerFile (path : String)
  | logArtifact (key : String) (path : String)
deriving DecidableEq, Repr

/-- An `Event` that mutates the cluster's name → dataset registry or
materializes data on the cluster: `persist`, `publish_dataset`
or `unpublish_dataset`. -/
def Event.isClusterRegistryCall : Event → Bool
  | Event.persistCall _ => true
  | Event.unpublishCall _ => true
  | Event.publishCall _ _ => true
  | _ => false

/-- All state an invocation of `load_dask` can observe or change:
the execution context, the cluster's published-dataset registry
(`dask_client.datasets`, a name → dataset mapping represented as an
association list), the cluster's current scheduler connection info,
the local files written (path → content), the artifacts logged on the
context (key, local_path), and the trace of collaborator calls. -/
structure World where
  ctx : MLClientCtx
  datasets : List (String × Df)
  schedulerInfo : Nat
  files : List (String × Nat)
  artifacts : List (String × String)
  events : List Event
deriving DecidableEq, Repr

/-- Shallow embedding of `load_dask` from `src/load_dask/load_dask.ipynb`:

```python
def load_dask(context, src_data, dask_key="dask_key", inc_cols=None,
              index_cols=None, dask_persist=True, refresh_data=True,
              scheduler_key="scheduler") -> None:
    if hasattr(context, "dask_client"):
        dask_client = context.dask_client
    else:
        raise Exception("a dask client was not found in the execution context")
    df = src_data.as_df(df_module=dd)
    if dask_persist:
        df = dask_client.persist(df)
        if dask_client.datasets and dask_key in dask_client.datasets:
            dask_client.unpublish_dataset(dask_key)
        dask_client.publish_dataset(df, name=dask_key)
    if context:
        context.dask_client = dask_client
    dask_client.write_scheduler_file(scheduler_key + ".json")
    context.log_artifact(scheduler_key, local_path=scheduler_key + ".json")
```

Collaborator calls are modelled on the `World`:
`unpublish_dataset` deletes the name's binding from the registry mapping,
`publish_dataset` adds a binding, `write_scheduler_file` (over)writes the
file with the cluster's current scheduler info, `log_artifact` records
the (key, local_path) pair.  `context` is an ordinary Python object and
hence truthy, so the `if context:` re-assignment always runs.
`refresh_data` is accepted but never read by the body. -/
def load_dask (w : World) (src_data : Nat) (dask_key : String)
    (inc_cols : Option (List String)) (index_cols : Option (List String))
    (dask_persist : Bool) (refresh_data : Bool) (scheduler_key : String) :
    World × Outcome :=
  match w.ctx.dask_client with
  | none => (w, Outcome.raised "a dask client was not found in the execution context")
  | some dask_client =>
    let df : Df := Df.fromSource src_data inc_cols index_cols
    let w1 : World := { w with events := w.events ++ [Event.asDfCall src_data] }
    let w2 : World :=
      if dask_persist then
        let dfp : Df := Df.persisted df
        let wa : World := { w1 with events := w1.events ++ [Event.persistCall df] }
        let wb : World :=
          if !wa.datasets.isEmpty && wa.datasets.any (fun p => p.1 == dask_key) then
            { wa with datasets := wa.datasets.filter (fun p => p.1 != dask_key),
                      events := wa.events ++ [Event.unpublishCall dask_key] }
          else wa
        { wb with datasets := wb.datasets ++ [(dask_key, dfp)],
                  events := wb.events ++ [Event.publishCall dask_key dfp] }
      else w1
    let w3 : World := { w2 with ctx := { dask_client := some dask_client } }
    let w4 : World := { w3 with
      files := w3.files.filter (fun p => p.1 != scheduler_key ++ ".json") ++
               [(scheduler_key ++ ".json", w3.schedulerInfo)],
      events := w3.events ++ [Event.writeSchedulerFile (scheduler_key ++ ".json")] }
    let w5 : World := { w4 with
      artifacts := w4.artifacts ++ [(scheduler_key, scheduler_key ++ ".json")],
      events := w4.events ++ [Event.logArtifact scheduler_key (scheduler_key ++ ".json")] }
    (w5, Outcome.ok PyVal.pynone)

/-- A sample world with a client handle present, one registered dataset
and a stale scheduler file, used by the concrete witnesses. -/
def w0 : World :=
  { ctx := { dask_client := some 7 }
    datasets := [("dask_key", Df.fromSource 1 none none)]
    schedulerInfo := 42
    files := [("scheduler.json", 5)]
    artifacts := []
    events := [] }

/-- A sample world whose context has no `dask_client` attribute. -/
def wNoClient : World :=
  { ctx := { dask_client := none }
    datasets := [("dask_key", Df.fromSource 1 none none)]
    schedulerInfo := 42
    files := []
    artifacts := []
    events := [] }

/-- The guard of the unpublish step: `dask_client.datasets and dask_key in
dask_client.datasets` (a non-empty mapping is truthy in Python). -/
def unpublishGuard (datasets : List (String × Df)) (dask_key : String) : Bool :=
  !datasets.isEmpty && datasets.any (fun p => p.1 == dask_key)

/-- Normal form of a `load_dask` invocation when the context carries a
client handle: the explicit final world and the returned value. -/
theorem load_dask_some_eq (w : World) (c src : Nat) (key : String)
    (inc idx : Option (List String)) (persist rf : Bool) (sk : String)
    (h : w.ctx.dask_client = some c) :
    load_dask w src key inc idx persist rf sk =
      ({ ctx := { dask_client := some c }
         datasets :=
           if persist then
             (if unpublishGuard w.datasets key then
               w.datasets.filter (fun p => p.1 != key)
             else w.datasets) ++ [(key, Df.persisted (Df.fromSource src inc idx))]
           else w.datasets
         schedulerInfo := w.schedulerInfo
         files := w.files.filter (fun p => p.1 != sk ++ ".json") ++
                  [(sk ++ ".json", w.schedulerInfo)]
         artifacts := w.artifacts ++ [(sk, sk ++ ".json")]
         events := w.events ++
           (if persist then
             [Event.asDfCall src, Event.persistCall (Df.fromSource src inc idx)] ++
             (if unpublishGuard w.datasets key then [Event.unpublishCall key] else []) ++
             [Event.publishCall key (Df.persisted (Df.fromSource src inc idx))]
           else [Event.asDfCall src]) ++
           [Event.writeSchedulerFile (sk ++ ".json"), Event.logArtifact sk (sk ++ ".json")] },
       Outcome.ok PyVal.pynone) := by
  unfold load_dask unpublishGuard
  rw [h]
  by_cases hp : persist
  · by_cases hg : (!w.datasets.isEmpty && w.datasets.any (fun p => p.1 == key)) = true
    · simp [hp, hg]
    · simp [hp, hg]
  · simp [hp]

/-- Normal form of a `load_dask` invocation when the context has no
`dask_client` attribute: the exception is raised and nothing changes. -/
theorem load_dask_none_eq (w : World) (src : Nat) (key : String)
    (inc idx : Option (List String)) (persist rf : Bool) (sk : String)
    (h : w.ctx.dask_client = none) :
    load_dask w src key inc idx persist rf sk =
      (w, Outcome.raised "a dask client was not found in the execution context") := by
  unfold load_dask
  rw [h]

/-- Filtering for a key right after all bindings of that key were removed
yields nothing. -/
theorem filter_key_erase {β : Type} (l : List (String × β)) (p : String) :
    (l.filter (fun q => q.1 != p)).filter (fun q => q.1 == p) = [] := by
  rw [List.filter_filter]
  simp [bne]

/-- Removing all bindings of a key is idempotent. -/
theorem filter_key_erase_idem {β : Type} (l : List (String × β)) (p : String) :
    (l.filter (fun q => q.1 != p)).filter (fun q => q.1 != p) =
      l.filter (fun q => q.1 != p) := by
  rw [List.filter_filter]
  simp

/-- If no entry of the list carries the key, filtering for the key yields
nothing. -/
theorem filter_key_of_any_false {β : Type} (l : List (String × β)) (p : String)
    (h : l.any (fun q => q.1 == p) = false) :
    l.filter (fun q => q.1 == p) = [] :=
  List.filter_eq_nil_iff.mpr (List.any_eq_false.mp h)

/-- After the unpublish-guarded erase followed by publishing `(key, d)`,
the bindings of `key` are exactly the single new one. -/
theorem persist_registry_filter (l : List (String × Df)) (key : String) (d : Df) :
    ((if unpublishGuard l key then l.filter (fun p => p.1 != key) else l) ++
        [(key, d)]).filter (fun p => p.1 == key) = [(key, d)] := by
  by_cases hg : unpublishGuard l key = true
  · simp [hg, List.filter_append, filter_key_erase]
  · have hg' : unpublishGuard l key = false := Bool.eq_false_iff.mpr hg
    have hany : l.any (fun q => q.1 == key) = false := by
      unfold unpublishGuard at hg'
      cases hae : l.any (fun q => q.1 == key)
      · rfl
      · cases hie : l.isEmpty
        · rw [hae, hie] at hg'; simp at hg'
        · rw [List.isEmpty_iff.mp hie] at hae; simp at hae
    simp [hg', List.filter_append, filter_key_of_any_false l key hany]

/-- The unpublish-guarded erase followed by publishing `(key, d)` leaves the
bindings of every other key exactly as they were. -/
theorem persist_registry_filter_ne (l : List (String × Df)) (key : String) (d : Df) :
    ((if unpublishGuard l key then l.filter (fun p => p.1 != key) else l) ++
        [(key, d)]).filter (fun p => p.1 != key) = l.filter (fun p => p.1 != key) := by
  by_cases hg : unpublishGuard l key = true
  · simp [hg, List.filter_append, filter_key_erase_idem]
  · simp [hg, List.filter_append]

/-- Overwriting a file (dropping the old binding of the path and appending the
new one) leaves the path bound to exactly the new content. -/
theorem filter_key_overwrite {β : Type} (l : List (String × β)) (p : String) (v : β) :
    ((l.filter (fun q => q.1 != p) ++ [(p, v)]).filter (fun q => q.1 == p)) = [(p, v)] := by
  simp [List.filter_append, filter_key_erase]

/-- In a list whose bindings of `key` are exactly `[(key, v2)]`, any member
carrying `key` has value `v2`. -/
theorem mem_key_unique {β : Type} (l : List (String × β)) (key : String) (v v2 : β)
    (hf : l.filter (fun p => p.1 == key) = [(key, v2)])
    (hmem : (key, v) ∈ l) : v = v2 := by
  have hm : (key, v) ∈ l.filter (fun p => p.1 == key) :=
    List.mem_filter.mpr ⟨hmem, by simp⟩
  rw [hf] at hm
  simp only [List.mem_singleton, Prod.mk.injEq] at hm
  exact hm.2

/-- Claim C1: when the execution context has no `dask_client` attribute,
`load_dask` raises the missing-client exception and performs no side
effect: the returned world equals the initial one, so no dataset load is
attempted, no scheduler file is written, no artifact is logged, and the
cluster's name registry is unchanged. -/
theorem load_dask_missing_client_aborts (w : World) (src : Nat) (key : String)
    (inc idx : Option (List String)) (persist rf : Bool) (sk : String)
    (h : w.ctx.dask_client = none) :
    load_dask w src key inc idx persist rf sk =
      (w, Outcome.raised "a dask client was not found in the execution context") :=
  load_dask_none_eq w src key inc idx persist rf sk h

/-- Witness for C1 at a concrete clientless world. -/
theorem load_dask_missing_client_aborts_witness :
    wNoClient.ctx.dask_client = none ∧
    load_dask wNoClient 2 "dask_key" none none true true "scheduler" =
      (wNoClient, Outcome.raised "a dask client was not found in the execution context") :=
  ⟨rfl, load_dask_missing_client_aborts wNoClient 2 "dask_key" none none true true "scheduler" rfl⟩

/-- Claim C2: with a client present and `dask_persist = true`, whatever the
starting registry, the final registry binds the target name to exactly one
registration — the newly persisted dataframe — and the bindings of every
other name are untouched (no duplicate or leaked registration). -/
theorem load_dask_persist_single_registration (w : World) (c src : Nat) (key : String)
    (inc idx : Option (List String)) (rf : Bool) (sk : String)
    (h : w.ctx.dask_client = some c) :
    ((load_dask w src key inc idx true rf sk).1.datasets.filter (fun p => p.1 == key)) =
      [(key, Df.persisted (Df.fromSource src inc idx))] ∧
    ((load_dask w src key inc idx true rf sk).1.datasets.filter (fun p => p.1 != key)) =
      w.datasets.filter (fun p => p.1 != key) := by
  rw [load_dask_some_eq w c src key inc idx true rf sk h]
  exact ⟨persist_registry_filter _ _ _, persist_registry_filter_ne _ _ _⟩

/-- Witness for C2 at a concrete world where the name is already taken. -/
theorem load_dask_persist_single_registration_witness :
    w0.ctx.dask_client = some 7 ∧
    ((load_dask w0 2 "dask_key" none none true true "scheduler").1.datasets.filter
        (fun p => p.1 == "dask_key")) =
      [("dask_key", Df.persisted (Df.fromSource 2 none none))] :=
  ⟨rfl, (load_dask_persist_single_registration w0 7 2 "dask_key" none none true "scheduler" rfl).1⟩

/-- Claim C3: with a client present and `dask_persist = false`, the cluster's
name → dataset registry is returned unchanged and none of the calls made
during the invocation is a `persist`, `publish_dataset` or
`unpublish_dataset` call. -/
theorem load_dask_nopersist_registry_unchanged (w : World) (c src : Nat) (key : String)
    (inc idx : Option (List String)) (rf : Bool) (sk : String)
    (h : w.ctx.dask_client = some c) :
    (load_dask w src key inc idx false rf sk).1.datasets = w.datasets ∧
    ∀ e ∈ ((load_dask w src key inc idx false rf sk).1.events).drop w.events.length,
      e.isClusterRegistryCall = false := by
  rw [load_dask_some_eq w c src key inc idx false rf sk h]
  refine ⟨rfl, ?_⟩
  intro e he
  rw [List.append_assoc, List.drop_left] at he
  simp at he
  rcases he with h1 | h1 | h1 <;> subst h1 <;> rfl

/-- Witness for C3 at a concrete world with a registered dataset. -/
theorem load_dask_nopersist_registry_unchanged_witness :
    w0.ctx.dask_client = some 7 ∧
    (load_dask w0 2 "dask_key" none none false true "scheduler").1.datasets = w0.datasets :=
  ⟨rfl, (load_dask_nopersist_registry_unchanged w0 7 2 "dask_key" none none true "scheduler" rfl).1⟩

/-- Claim C4: with a client present, whatever the value of `dask_persist`,
the scheduler descriptor file carrying the cluster's current scheduler info
is written and the artifact is logged under the scheduler key, the write
happening before the log (they are the last two collaborator calls). -/
theorem load_dask_always_writes_and_logs (w : World) (c src : Nat) (key : String)
    (inc idx : Option (List String)) (persist rf : Bool) (sk : String)
    (h : w.ctx.dask_client = some c) :
    (sk ++ ".json", w.schedulerInfo) ∈ (load_dask w src key inc idx persist rf sk).1.files ∧
    (sk, sk ++ ".json") ∈ (load_dask w src key inc idx persist rf sk).1.artifacts ∧
    ∃ es, (load_dask w src key inc idx persist rf sk).1.events =
      es ++ [Event.writeSchedulerFile (sk ++ ".json"), Event.logArtifact sk (sk ++ ".json")] := by
  rw [load_dask_some_eq w c src key inc idx persist rf sk h]
  refine ⟨by simp, by simp, ⟨_, rfl⟩⟩

/-- Witness for C4 at a concrete world, with `dask_persist = false`. -/
theorem load_dask_always_writes_and_logs_witness :
    w0.ctx.dask_client = some 7 ∧
    (("scheduler" ++ ".json", w0.schedulerInfo) ∈
        (load_dask w0 2 "dask_key" none none false true "scheduler").1.files ∧
      ("scheduler", "scheduler" ++ ".json") ∈
        (load_dask w0 2 "dask_key" none none false true "scheduler").1.artifacts ∧
      ∃ es, (load_dask w0 2 "dask_key" none none false true "scheduler").1.events =
        es ++ [Event.writeSchedulerFile ("scheduler" ++ ".json"),
               Event.logArtifact "scheduler" ("scheduler" ++ ".json")]) :=
  ⟨rfl, load_dask_always_writes_and_logs w0 7 2 "dask_key" none none false true "scheduler" rfl⟩

/-- Counterexample to claim C5 as stated: a concrete successful invocation
whose returned value is Python `None`, which is not a scheduler descriptor
document — the function is annotated `-> None` and has no return statement,
so it never returns the descriptor to its caller. -/
theorem load_dask_returns_pynone_cex :
    (load_dask w0 2 "dask_key" none none true true "scheduler").2 = Outcome.ok PyVal.pynone ∧
    PyVal.isSchedulerDescriptor PyVal.pynone = false :=
  ⟨rfl, rfl⟩

/-- Claim C5 (amended): every successful invocation returns Python `None`;
the scheduler descriptor document is instead produced as the written
`<scheduler_key>.json` file and handed to the artifact logger. -/
theorem load_dask_returns_pynone (w : World) (c src : Nat) (key : String)
    (inc idx : Option (List String)) (persist rf : Bool) (sk : String)
    (h : w.ctx.dask_client = some c) :
    (load_dask w src key inc idx persist rf sk).2 = Outcome.ok PyVal.pynone ∧
    (sk ++ ".json", w.schedulerInfo) ∈ (load_dask w src key inc idx persist rf sk).1.files ∧
    (sk, sk ++ ".json") ∈ (load_dask w src key inc idx persist rf sk).1.artifacts := by
  rw [load_dask_some_eq w c src key inc idx persist rf sk h]
  exact ⟨rfl, by simp, by simp⟩

/-- Witness for the amended C5 at a concrete world. -/
theorem load_dask_returns_pynone_witness :
    w0.ctx.dask_client = some 7 ∧
    (load_dask w0 3 "dask_key" none none true true "scheduler").2 = Outcome.ok PyVal.pynone :=
  ⟨rfl, (load_dask_returns_pynone w0 7 3 "dask_key" none none true true "scheduler" rfl).1⟩

/-- Claim C6: with scheduler key `sk`, the file is written under exactly
`sk ++ ".json"` and the artifact is logged with that same path as its
local path; after the invocation that path is bound to exactly the
cluster's current scheduler info — the previous file content is
overwritten, never merged. -/
theorem load_dask_scheduler_file_name_overwrite (w : World) (c src : Nat) (key : String)
    (inc idx : Option (List String)) (persist rf : Bool) (sk : String)
    (h : w.ctx.dask_client = some c) :
    ((load_dask w src key inc idx persist rf sk).1.files.filter
        (fun q => q.1 == sk ++ ".json")) = [(sk ++ ".json", w.schedulerInfo)] ∧
    Event.writeSchedulerFile (sk ++ ".json") ∈
      (load_dask w src key inc idx persist rf sk).1.events ∧
    Event.logArtifact sk (sk ++ ".json") ∈
      (load_dask w src key inc idx persist rf sk).1.events := by
  rw [load_dask_some_eq w c src key inc idx persist rf sk h]
  exact ⟨filter_key_overwrite _ _ _, by simp, by simp⟩

/-- Witness for C6 at a concrete world holding a stale scheduler file. -/
theorem load_dask_scheduler_file_name_overwrite_witness :
    w0.ctx.dask_client = some 7 ∧
    ((load_dask w0 2 "dask_key" none none true true "scheduler").1.files.filter
        (fun q => q.1 == "scheduler" ++ ".json")) =
      [("scheduler" ++ ".json", w0.schedulerInfo)] :=
  ⟨rfl,
   (load_dask_scheduler_file_name_overwrite w0 7 2 "dask_key" none none true true "scheduler"
     rfl).1⟩

/-- Claim C7: two successive invocations with `dask_persist = true`, the same
name and different source dataframes leave the name bound to the second
persisted dataframe only; the first one's registration is gone from the
registry entirely. -/
theorem load_dask_second_replaces_first (w : World) (c s1 s2 : Nat) (key : String)
    (i1 x1 i2 x2 : Option (List String)) (r1 r2 : Bool) (k1 k2 : String)
    (h : w.ctx.dask_client = some c)
    (hne : Df.fromSource s1 i1 x1 ≠ Df.fromSource s2 i2 x2) :
    ((load_dask (load_dask w s1 key i1 x1 true r1 k1).1 s2 key i2 x2 true r2 k2).1.datasets.filter
        (fun p => p.1 == key)) = [(key, Df.persisted (Df.fromSource s2 i2 x2))] ∧
    (key, Df.persisted (Df.fromSource s1 i1 x1)) ∉
      (load_dask (load_dask w s1 key i1 x1 true r1 k1).1 s2 key i2 x2 true r2 k2).1.datasets := by
  have h1 : (load_dask w s1 key i1 x1 true r1 k1).1.ctx.dask_client = some c := by
    rw [load_dask_some_eq w c s1 key i1 x1 true r1 k1 h]
  have hf :
      ((load_dask (load_dask w s1 key i1 x1 true r1 k1).1 s2 key i2 x2 true r2
            k2).1.datasets.filter (fun p => p.1 == key)) =
        [(key, Df.persisted (Df.fromSource s2 i2 x2))] := by
    rw [load_dask_some_eq _ c s2 key i2 x2 true r2 k2 h1]
    exact persist_registry_filter _ _ _
  refine ⟨hf, fun hmem => ?_⟩
  have hv :
      Df.persisted (Df.fromSource s1 i1 x1) = Df.persisted (Df.fromSource s2 i2 x2) :=
    mem_key_unique _ key _ _ hf hmem
  exact hne (by injection hv)

/-- Witness for C7: two concrete runs with sources 2 then 3. -/
theorem load_dask_second_replaces_first_witness :
    w0.ctx.dask_client = some 7 ∧
    Df.fromSource 2 none none ≠ Df.fromSource 3 none none ∧
    ((load_dask (load_dask w0 2 "dask_key" none none true true "scheduler").1 3 "dask_key"
        none none true true "scheduler").1.datasets.filter
          (fun p => p.1 == "dask_key")) =
      [("dask_key", Df.persisted (Df.fromSource 3 none none))] :=
  ⟨rfl, by decide,
   (load_dask_second_replaces_first w0 7 2 3 "dask_key" none none none none true true
     "scheduler" "scheduler" rfl (by decide)).1⟩

/-- Claim C8: `refresh_data` is dead: two invocations differing only in its
value are indistinguishable — same final world (registry, files, artifacts,
trace) and same outcome.  In particular, contrary to the docstring,
`refresh_data = false` with an already-registered key raises nothing that
`refresh_data = true` would not. -/
theorem load_dask_refresh_data_irrelevant (w : World) (src : Nat) (key : String)
    (inc idx : Option (List String)) (persist r1 r2 : Bool) (sk : String) :
    load_dask w src key inc idx persist r1 sk =
      load_dask w src key inc idx persist r2 sk := rfl

/-- Claim C9: `unpublish_dataset` is called during an invocation only for the
target key, and only when the starting registry is non-empty and currently
contains that key; it is never called for an unregistered name. -/
theorem load_dask_unpublish_only_registered (w : World) (src : Nat) (key n : String)
    (inc idx : Option (List String)) (persist rf : Bool) (sk : String)
    (h : Event.unpublishCall n ∈
      ((load_dask w src key inc idx persist rf sk).1.events).drop w.events.length) :
    n = key ∧ w.datasets ≠ [] ∧ w.datasets.any (fun p => p.1 == n) = true := by
  cases hc : w.ctx.dask_client with
  | none =>
    rw [load_dask_none_eq w src key inc idx persist rf sk hc] at h
    simp at h
  | some c =>
    rw [load_dask_some_eq w c src key inc idx persist rf sk hc] at h
    rw [List.append_assoc, List.drop_left] at h
    by_cases hp : persist
    · by_cases hg : unpublishGuard w.datasets key = true
      · simp [hp, hg] at h
        unfold unpublishGuard at hg
        rcases Bool.and_eq_true_iff.mp hg with ⟨he, ha⟩
        have hnn : w.datasets ≠ [] := by
          intro hnil
          rw [hnil] at ha
          cases ha
        subst h
        exact ⟨rfl, hnn, ha⟩
      · simp [hp, hg] at h
    · simp [hp] at h

/-- Witness for C9 at a concrete world where the key is registered, so the
trace contains the unpublish call. -/
theorem load_dask_unpublish_only_registered_witness :
    (Event.unpublishCall "dask_key" ∈
      ((load_dask w0 2 "dask_key" none none true true "scheduler").1.events).drop
        w0.events.length) ∧
    ("dask_key" = "dask_key" ∧ w0.datasets ≠ [] ∧
      w0.datasets.any (fun p => p.1 == "dask_key") = true) :=
  ⟨by decide,
   load_dask_unpublish_only_registered w0 2 "dask_key" "dask_key" none none true true
     "scheduler" (by decide)⟩

/-- Claim C10: after a successful invocation the context's `dask_client`
attribute still holds exactly the handle that was read from the context at
validation time — the re-assignment writes the same value back. -/
theorem load_dask_preserves_client_handle (w : World) (c src : Nat) (key : String)
    (inc idx : Option (List String)) (persist rf : Bool) (sk : String)
    (h : w.ctx.dask_client = some c) :
    (load_dask w src key inc idx persist rf sk).1.ctx.dask_client = w.ctx.dask_client := by
  rw [load_dask_some_eq w c src key inc idx persist rf sk h, h]

/-- Witness for C10 at a concrete world. -/
theorem load_dask_preserves_client_handle_witness :
    w0.ctx.dask_client = some 7 ∧
    (load_dask w0 2 "dask_key" none none true true "scheduler").1.ctx.dask_client =
      w0.ctx.dask_client :=
  ⟨rfl, load_dask_preserves_client_handle w0 7 2 "dask_key" none none true true "scheduler" rfl⟩
